import Mathlib

/-!
# Live Opportunity Client — verification of the dashboard's data pipeline

Shallow embedding of `src/frontend/js/app.js` (and, where noted, of the
duplicate dashboard script embedded in `src/unnamed/part_000`): the
client-side filter/sort/render pipeline, the KPI computation, the WebSocket
reconnect backoff, the manual-refresh handler and the chart modal.

Modelling conventions, used throughout:
* JavaScript numbers are modelled as `ℚ` (exact arithmetic; none of the
  verified properties depends on float rounding, and no `NaN` arises on the
  modelled paths because every numeric field access is guarded by `|| 0` or
  `?? 0`).
* A possibly-absent object field is an `Option`; `x || 0` and `x ?? 0`
  both become `Option.getD 0` (for a `ℚ`-valued field the two agree up to
  the value `0`, which `||` also maps to `0`).
* Per the documented data model, `currency` is the token symbol and the
  unique key of an opportunity inside a snapshot, so it is a plain
  `String`; the code's defensive `d.currency || ''` is the identity there
  except on the empty string, which it maps to itself.
* DOM writes are modelled as fields of an explicit state record; DOM reads
  of the filter controls are explicit inputs.
* `Array.prototype.sort` with a comparator `c` is (since ES2019) a stable
  sort that orders `a` before `b` whenever `c a b ≤ 0`; a stable sort for
  a total transitive relation has a unique output, so it is modelled by
  `List.insertionSort` on the relation `fun a b => c a b ≤ 0`.
-/

namespace OppClient

/-- Character-wise uppercasing, the model of `String.prototype.toUpperCase`
(exact for the ASCII token symbols and search strings this client handles). -/
def jsToUpper (s : String) : String :=
  ⟨s.data.map Char.toUpper⟩

/-- Character-wise lowercasing, the model of `String.prototype.toLowerCase`. -/
def jsToLower (s : String) : String :=
  ⟨s.data.map Char.toLower⟩

/-- Model of `String.prototype.trim`: strip whitespace from both ends. -/
def jsTrim (s : String) : String :=
  ⟨((s.data.dropWhile Char.isWhitespace).reverse.dropWhile Char.isWhitespace).reverse⟩

/-- Whether `needle` starts the list `hay`. -/
def listStartsWith : List Char → List Char → Bool
  | [], _ => true
  | _ :: _, [] => false
  | a :: as, b :: bs => a == b && listStartsWith as bs

/-- Contiguous-substring test on the underlying character lists: the model
of `String.prototype.includes`. -/
def strContains (hay needle : String) : Bool :=
  go hay.data
where
  go : List Char → Bool
    | [] => listStartsWith needle.data []
    | c :: cs => listStartsWith needle.data (c :: cs) || go cs

/-- One opportunity record as pushed by the server (data model §3 of the
spec; the three withdrawal-fee fields are read by `renderTable`). -/
structure Opportunity where
  currency : String
  gate_apr : Option ℚ
  okx_loan_rate : Option ℚ
  binance_loan_rate : Option ℚ
  net_apr : Option ℚ
  effective_ev : Option ℚ
  best_loan_source : Option String
  available : Option Bool
  status : Option String
  okx_avail_loan : Option ℚ
  gate_wd_fee_usd : Option ℚ
  okx_wd_fee_usd : Option ℚ
  binance_wd_fee_usd : Option ℚ
  deriving DecidableEq, Repr

/-- The filter controls as read inside `applyFiltersAndRender`, after the
parsing the code performs at the read site: `minApr` stands for
`parseFloat(filterApr.value) || 0` and `loanSize` for
`parseFloat(filterLoanSize.value) || 1000`; `search` is the raw text of the
search box (the code trims and uppercases it itself). -/
structure FilterState where
  source : String
  minApr : ℚ
  search : String
  avail : String
  loanSize : ℚ
  deriving DecidableEq, Repr

/-- The filtering passes of `applyFiltersAndRender` (app.js lines 212-245),
translated clause by clause: source filter, APR floor, substring search,
availability. -/
def applyFilters (fs : FilterState) (data : List Opportunity) : List Opportunity :=
  let data :=
    if fs.source = "okx" then
      data.filter fun d => d.best_loan_source == some "OKX"
    else if fs.source = "binance" then
      data.filter fun d => d.best_loan_source == some "Binance"
    else data
  let data :=
    if fs.minApr ≠ 0 then data.filter fun d => fs.minApr ≤ d.net_apr.getD 0
    else data
  let search := jsToUpper (jsTrim fs.search)
  let data :=
    if search ≠ "" then
      data.filter fun d => strContains (jsToUpper d.currency) search
    else data
  let data :=
    if fs.avail = "available" then
      data.filter fun d => d.available == some true || d.status == some "✅ AVAILABLE"
    else if fs.avail = "unavailable" then
      data.filter fun d => d.available == some false || d.status == some "❌ NOT AVAILABLE"
    else data
  data

/-- The sortable columns (`state.sortCol` values; one per opportunity
field the table shows). -/
inductive SortCol where
  | currency
  | gate_apr
  | okx_loan_rate
  | binance_loan_rate
  | net_apr
  | effective_ev
  | okx_avail_loan
  deriving DecidableEq, Repr

/-- The numeric field a sort column reads; `a[state.sortCol] ?? 0` treats a
missing value as `0`. The `currency` column holds a string and is compared
by `compareFn`'s string branch, so its entry here is unused. -/
def numField (d : Opportunity) : SortCol → Option ℚ
  | .currency => none
  | .gate_apr => d.gate_apr
  | .okx_loan_rate => d.okx_loan_rate
  | .binance_loan_rate => d.binance_loan_rate
  | .net_apr => d.net_apr
  | .effective_ev => d.effective_ev
  | .okx_avail_loan => d.okx_avail_loan

/-- Model of `String.prototype.localeCompare` in the default locale on the
token symbols this client sorts: the sign of the lexicographic comparison. -/
def localeCompare (x y : String) : ℚ :=
  if x < y then -1 else if y < x then 1 else 0

/-- The sort comparator of `applyFiltersAndRender` (app.js lines 247-254):
`va = a[col] ?? 0`, strings via `localeCompare`, numbers via subtraction,
with the direction chosen by `state.sortAsc`. The code dispatches on
`typeof va`, which is `'string'` exactly for the `currency` column (every
opportunity carries its token symbol), so the dispatch is by column here. -/
def compareFn (col : SortCol) (asc : Bool) (a b : Opportunity) : ℚ :=
  match col with
  | .currency =>
      if asc then localeCompare a.currency b.currency
      else localeCompare b.currency a.currency
  | c =>
      let va := (numField a c).getD 0
      let vb := (numField b c).getD 0
      if asc then va - vb else vb - va

/-- The order in which the JS engine's stable sort leaves `a` before `b`:
the comparator does not ask to swap them. -/
def sortRel (col : SortCol) (asc : Bool) : Opportunity → Opportunity → Prop :=
  fun a b => compareFn col asc a b ≤ 0

instance (col : SortCol) (asc : Bool) : DecidableRel (sortRel col asc) :=
  fun a b => inferInstanceAs (Decidable (compareFn col asc a b ≤ 0))

/-- Model of `data.sort(comparator)` in `applyFiltersAndRender`: the unique stable
sort for the comparator's order. -/
def jsSortData (col : SortCol) (asc : Bool) (l : List Opportunity) : List Opportunity :=
  l.insertionSort (sortRel col asc)

/-- Model of `Number.prototype.toFixed(2)`: round to hundredths (ties away from
zero on the exact value) and print with exactly two fractional digits. -/
def toFixed2 (q : ℚ) : String :=
  let n : ℤ := round (q * 100)
  let sign := if n < 0 then "-" else ""
  let m := n.natAbs
  sign ++ toString (m / 100) ++ "." ++ (if m % 100 < 10 then "0" else "") ++ toString (m % 100)

/-- Model of `window.fmt` (app.js lines 14-19) applied to a number that is known to
be present and finite — every call site feeds it a `|| 0`-guarded value —
so only the `toFixed(2)` branch is reachable. -/
def fmt (q : ℚ) : String :=
  toFixed2 q

/-- Truncation toward zero: `parseInt(v, 10)` applied to a decimal number. -/
def jsTrunc (q : ℚ) : ℤ :=
  if 0 ≤ q then ⌊q⌋ else -⌊-q⌋

/-- Model of `window.fmtInt` on a present numeric value: `parseInt` then
`toLocaleString`; the locale grouping separators are not modelled (no
verified property mentions them), only the digits. -/
def fmtInt (q : ℚ) : String :=
  toString (jsTrunc q)

/-- Model of `window.esc` (app.js lines 28-35): HTML-escape the five special
characters. The sequential `replace` chain is equivalent to this
character-wise map because no replacement string contains a character that
a later `replace` in the chain rewrites. -/
def escChar (c : Char) : String :=
  if c = '&' then "&amp;"
  else if c = '<' then "&lt;"
  else if c = '>' then "&gt;"
  else if c = '"' then "&quot;"
  else if c = '\x27' then "&#039;"
  else String.singleton c

/-- Model of `window.esc` on a string (the `!str` guard returns `''` for `''`,
which the character-wise map also does). -/
def esc (s : String) : String :=
  String.join (s.data.map escChar)

/-- ECMAScript `ToInt32`: wrap to a signed 32-bit integer. -/
def jsInt32 (n : ℤ) : ℤ :=
  (n + 2 ^ 31) % 2 ^ 32 - 2 ^ 31

/-- One step of the demo-signal hash in `renderTable`:
`(((a << 5) - a) + token.charCodeAt(i)) | 0`. The shift wraps at 32 bits,
the subtraction and addition are exact in a float64 at this magnitude, and
`| 0` wraps the result; `charCodeAt` is the character's code point for the
BMP token symbols the server sends. -/
def hashStep (a : ℤ) (c : Char) : ℤ :=
  jsInt32 (jsInt32 (a * 32) - a + c.toNat)

/-- The `hash(token)` fold of `renderTable`: fold `hashStep` over the characters. -/
def jsHash (s : String) : ℤ :=
  s.data.foldl hashStep 0

/-- The placeholder signal texts of `renderTable` (app.js line 300). -/
def signals : List String :=
  ["▲ Early", "▲ Weak", "■ Flat", "▼ Fading"]

/-- One rendered table row: the text content of each cell built by the
`data.map` body of `renderTable` (app.js lines 276-319). CSS class names
and the static `$` markup are presentation only and are not modelled. -/
structure RenderRow where
  tokenCell : String
  signalCell : String
  gateAprCell : String
  borrowRateCell : String
  gateWdCell : String
  netAprCell : String
  dailyEarn : ℚ
  dailyCell : String
  effEvCell : String
  sourceCell : String
  maxLoanCell : String
  statusCell : String
  deriving DecidableEq, Repr

/-- The row constructor of `renderTable`, translated constant by constant
from app.js lines 276-319; `loanSize` is `parseFloat(filterLoanSize.value)
|| 1000`, read inside the map body. -/
def renderRow (loanSize : ℚ) (d : Opportunity) : RenderRow :=
  let netApr := d.net_apr.getD 0
  let gateApr := d.gate_apr.getD 0
  let okxRate := d.okx_loan_rate.getD 0
  let binanceRate := d.binance_loan_rate.getD 0
  let maxLoan := d.okx_avail_loan.getD 0
  let source := d.best_loan_source.getD "None"
  let isAvailable := d.available == some true || d.status == some "✅ AVAILABLE"
  let effEv := d.effective_ev.getD 0
  let gateWd := d.gate_wd_fee_usd.getD 0
  let borrowRate :=
    if strContains (jsToLower source) "okx" then okxRate
    else if strContains (jsToLower source) "binance" then binanceRate
    else 0
  let dailyEarn := netApr / 100 / 365 * loanSize
  let sigIndex := (jsHash d.currency).natAbs % 4
  { tokenCell := esc (if d.currency = "" then "—" else d.currency) ++ " 📊"
    signalCell := (signals.get? sigIndex).getD ""
    gateAprCell := fmt gateApr
    borrowRateCell := if 0 < borrowRate then fmt borrowRate else "—"
    gateWdCell := fmt gateWd
    netAprCell := fmt netApr
    dailyEarn := dailyEarn
    dailyCell := fmt dailyEarn
    effEvCell := fmt effEv
    sourceCell := source
    maxLoanCell := if 0 < maxLoan then fmtInt maxLoan else "—"
    statusCell := if isAvailable then "✅" else "❌" }

/-- The table body after a render pass: `renderTable` writes a single
placeholder row when the filtered list is empty, otherwise one row per
opportunity. (The `catch` branch of `renderTable` is unreachable in the
model: row construction is total.) -/
inductive TableView where
  | placeholder
  | rows (rs : List RenderRow)
  deriving DecidableEq, Repr

/-- Model of `renderTable` (app.js lines 265-327). -/
def renderTable (loanSize : ℚ) (data : List Opportunity) : TableView :=
  if data.length = 0 then .placeholder else .rows (data.map (renderRow loanSize))

/-- Model of `Math.max(...xs)` on a non-empty spread; `updateKPIs` guards the empty
case away (where JS would give `-Infinity`, which has no `ℚ` counterpart),
so the `[]` value here is never read on a modelled path. -/
def jsMaxList : List ℚ → ℚ
  | [] => 0
  | x :: xs => xs.foldl max x

/-- The call `new Date(ts).toLocaleTimeString()` is modelled as the timestamp string
itself: no verified property depends on the clock-face rendering, only on
whether and from which timestamp it is produced. -/
def toLocaleTimeString (ts : String) : String :=
  ts

/-- The text content of the three KPI elements `updateKPIs` writes
(`#kpi-best-apr`, `#kpi-opps-count`, `#kpi-last-update`). -/
structure KPIDom where
  bestApr : String
  oppsCount : String
  lastUpdate : String
  deriving DecidableEq, Repr

/-- What one run of `updateKPIs` (app.js lines 332-349) writes: `none` when
the snapshot is empty (the early `return` — nothing is touched), otherwise
the three texts, the timestamp one being `none` when `state.lastUpdate` is
unset or empty (JS truthiness of the guard `if (state.lastUpdate)`). -/
structure KPIUpdate where
  bestApr : String
  oppsCount : String
  lastUpdate : Option String
  deriving DecidableEq, Repr

/-- The pure content of `updateKPIs`: the summary computed from the
unfiltered snapshot and its timestamp. -/
def kpiSummary (data : List Opportunity) (lastUpdate : Option String) : Option KPIUpdate :=
  if data.length = 0 then none
  else
    let netAprs := data.map fun d => d.net_apr.getD 0
    let topApr := jsMaxList netAprs
    some
      { bestApr := fmt topApr ++ "%"
        oppsCount := toString data.length
        lastUpdate :=
          if lastUpdate.getD "" = "" then none
          else some (toLocaleTimeString (lastUpdate.getD "")) }

/-- A `data_update` envelope from the stream, or the REST pull payload:
`{data: Opportunity[], timestamp}`; `handleDataUpdate` defends both fields
(`msg.data || []`, truthiness of `state.lastUpdate`). -/
structure DataMsg where
  data : Option (List Opportunity)
  timestamp : Option String
  deriving DecidableEq, Repr

/-- The module state of app.js that the opportunity pipeline reads and
writes: the snapshot cache (`state.data`, `state.lastUpdate`), the filter
and sort controls, and the DOM regions the pipeline renders into
(`state.filtered`, `#filtered-count`, `#opp-tbody`, the KPI elements).
Dropdown population and the status pills are outside the verified claims. -/
structure UIState where
  data : List Opportunity
  lastUpdate : Option String
  filters : FilterState
  sortCol : SortCol
  sortAsc : Bool
  filtered : List Opportunity
  filteredCountText : String
  table : TableView
  kpis : KPIDom
  deriving DecidableEq, Repr

/-- Model of `applyFiltersAndRender` (app.js lines 212-260): recompute the filtered,
sorted list from the cached snapshot and the current controls, then render
the table and the count — a full recompute, no incremental patching. -/
def applyFiltersAndRender (st : UIState) : UIState :=
  let rows := jsSortData st.sortCol st.sortAsc (applyFilters st.filters st.data)
  { st with
      filtered := rows
      filteredCountText := toString rows.length
      table := renderTable st.filters.loanSize rows }

/-- Model of `updateKPIs` (app.js lines 332-349) as a state update: apply the
summary when there is one; the early return on an empty snapshot leaves
every KPI element as it was. -/
def updateKPIs (st : UIState) : UIState :=
  match kpiSummary st.data st.lastUpdate with
  | none => st
  | some k =>
      { st with
          kpis :=
            { bestApr := k.bestApr
              oppsCount := k.oppsCount
              lastUpdate := k.lastUpdate.getD st.kpis.lastUpdate } }

/-- Model of `handleDataUpdate` (app.js lines 159-175): replace the snapshot cache
wholesale, then `applyFiltersAndRender()` and `updateKPIs()`. -/
def handleDataUpdate (msg : DataMsg) (st : UIState) : UIState :=
  updateKPIs (applyFiltersAndRender
    { st with data := msg.data.getD [], lastUpdate := msg.timestamp })

/-- The pipeline-relevant user/stream events: a pushed or pulled snapshot
(`handleDataUpdate`), a change to any filter control (`initFilters` wires
each of them to `applyFiltersAndRender`), and a click on a sortable column
header (`initSorting`). -/
inductive UIEvent where
  | snapshot (msg : DataMsg)
  | filtersChanged (fs : FilterState)
  | sortHeaderClick (col : SortCol)

/-- The event dispatch: each handler, exactly as wired in `initFilters`,
`initSorting` and the WebSocket `onmessage` path. A header click on the
active column toggles the direction; on a new column it selects it
descending (app.js lines 378-396). -/
def step (st : UIState) : UIEvent → UIState
  | .snapshot msg => handleDataUpdate msg st
  | .filtersChanged fs => applyFiltersAndRender { st with filters := fs }
  | .sortHeaderClick col =>
      if st.sortCol = col then
        applyFiltersAndRender { st with sortAsc := !st.sortAsc }
      else
        applyFiltersAndRender { st with sortCol := col, sortAsc := false }

/-- Digit run to a natural number. -/
def digitsToNat (ds : List Char) : ℕ :=
  ds.foldl (fun n c => 10 * n + (c.toNat - 48)) 0

/-- Model of `parseFloat` on the text of a numeric input control: optional
sign, digit run, optional fractional part, trailing characters ignored;
`none` models `NaN`. (Exponent notation is not modelled; the controls this
client parses are plain decimal inputs.) -/
def jsParseFloatQ (s : String) : Option ℚ :=
  let cs := (jsTrim s).data
  let signAndRest : ℚ × List Char :=
    match cs with
    | '-' :: rest => (-1, rest)
    | '+' :: rest => (1, rest)
    | _ => (1, cs)
  let sign := signAndRest.1
  let body := signAndRest.2
  let intPart := body.takeWhile Char.isDigit
  let rest := body.dropWhile Char.isDigit
  match intPart, rest with
  | [], '.' :: rest2 =>
      let frac := rest2.takeWhile Char.isDigit
      if frac.isEmpty then none
      else some (sign * ((digitsToNat frac : ℚ) / (10 : ℚ) ^ frac.length))
  | [], _ => none
  | _, '.' :: rest2 =>
      let frac := rest2.takeWhile Char.isDigit
      some (sign * ((digitsToNat intPart : ℚ) + (digitsToNat frac : ℚ) / (10 : ℚ) ^ frac.length))
  | _, _ => some (sign * (digitsToNat intPart : ℚ))

/-- The DOM as the derive pipeline could see it: the five filter controls
it declares as inputs, plus ambient page state (status pills, the clock,
the bot log) and the pending responses of the auxiliary pollers — state the
pipeline must NOT read. -/
structure DomEnv where
  filterSourceValue : String
  filterAprValue : String
  filterSearchValue : String
  filterAvailableValue : String
  filterLoanSizeValue : String
  clockText : String
  wsStatusHtml : String
  collectorStatusHtml : String
  botStatusHtml : String
  pendingPollResponses : List String
  deriving DecidableEq, Repr

/-- The control reads of `applyFiltersAndRender` and `renderTable`:
`parseFloat(filterApr.value) || 0`, raw search text, and
`parseFloat(filterLoanSize.value) || 1000` (`|| 1000` also replaces an
explicit `0`, which is falsy). -/
def readFilterState (env : DomEnv) : FilterState :=
  { source := env.filterSourceValue
    minApr := (jsParseFloatQ env.filterAprValue).getD 0
    search := env.filterSearchValue
    avail := env.filterAvailableValue
    loanSize :=
      match jsParseFloatQ env.filterLoanSizeValue with
      | some q => if q = 0 then 1000 else q
      | none => 1000 }

/-- The output of one derive pass: ordered rows, the filtered count, the
rendered table, the KPI summary, and the network requests the pass issued —
`applyFiltersAndRender`, `renderTable` and `updateKPIs` contain no `fetch`
and no `WebSocket.send`, so the translation of that field is `[]`. -/
structure PipelineResult where
  filtered : List Opportunity
  filteredCountText : String
  table : TableView
  kpiUpdate : Option KPIUpdate
  requests : List String
  deriving DecidableEq, Repr

/-- The derived-metrics pipeline as a function of (snapshot, sort state,
DOM): read the declared filter controls, filter, sort, render, summarise. -/
def derivePipeline (msg : DataMsg) (col : SortCol) (asc : Bool) (env : DomEnv) :
    PipelineResult :=
  let fs := readFilterState env
  let data := msg.data.getD []
  let rows := jsSortData col asc (applyFilters fs data)
  { filtered := rows
    filteredCountText := toString rows.length
    table := renderTable fs.loanSize rows
    kpiUpdate := kpiSummary data msg.timestamp
    requests := [] }

/-- The conjunction of the active filter predicates, written from the
claim's words (spec §4.2/§8): source match, minimum net APR with a missing
`net_apr` as `0`, case-insensitive substring match on the symbol, and the
availability match through the boolean or the matching status string — each
predicate skipped when its control is at the no-constraint value. Stated
here as the specification side, to be compared with `applyFilters`. -/
def matchesActiveFilters (fs : FilterState) (d : Opportunity) : Prop :=
  (fs.source = "okx" → d.best_loan_source = some "OKX") ∧
  (fs.source = "binance" → d.best_loan_source = some "Binance") ∧
  (fs.minApr ≠ 0 → fs.minApr ≤ d.net_apr.getD 0) ∧
  (jsToUpper (jsTrim fs.search) ≠ "" →
    strContains (jsToUpper d.currency) (jsToUpper (jsTrim fs.search)) = true) ∧
  (fs.avail = "available" → d.available = some true ∨ d.status = some "✅ AVAILABLE") ∧
  (fs.avail = "unavailable" → d.available = some false ∨ d.status = some "❌ NOT AVAILABLE")

/-- The WebSocket retry bookkeeping, as initialised in the `state` object
of the part_000 dashboard script (lines 148-157 there): `wsRetries: 0`,
`maxWsRetries: 50`. (The app.js copy omits both initialisers.) -/
structure WSState where
  wsRetries : ℕ
  maxWsRetries : ℕ
  deriving DecidableEq, Repr

/-- The initial transport state. -/
def wsInitState : WSState :=
  { wsRetries := 0, maxWsRetries := 50 }

/-- The reconnect delay line of the `onclose` handler:
`Math.min(1000 * Math.pow(1.5, state.wsRetries), 30000)`. -/
def backoffDelay (retries : ℕ) : ℚ :=
  min (1000 * (3 / 2 : ℚ) ^ retries) 30000

/-- The `onclose` handler's reconnect logic (part_000 lines 227-241, the
same text as app.js lines 134-148): below the bound, schedule a reconnect
after the backoff delay and increment the retry count; at the bound, do
nothing — the client stays disconnected. Returns the scheduled delay, if
any, with the next state. -/
def onClose (st : WSState) : Option ℚ × WSState :=
  if st.wsRetries < st.maxWsRetries then
    (some (backoffDelay st.wsRetries), { st with wsRetries := st.wsRetries + 1 })
  else (none, st)

/-- The `onopen` handler resets the retry count (`state.wsRetries = 0`). -/
def onOpen (st : WSState) : WSState :=
  { st with wsRetries := 0 }

/-- What one click of the refresh button did: messages sent on the stream,
HTTP requests issued, the snapshot applied through `handleDataUpdate` (if
any), and whether an exception reached the handler's `catch`. -/
structure RefreshOutcome where
  wsSent : List String
  requests : List String
  applied : Option DataMsg
  errorCaught : Bool
  deriving DecidableEq, Repr

/-- The `initRefresh` click handler of app.js (lines 419-444). When the
socket is open the body reads `res`, a variable that is not in scope —
a `ReferenceError`, swallowed by the handler's own `catch` — so nothing is
sent and nothing is fetched; the handler has no branch at all for a closed
socket. -/
def initRefreshClick (wsOpen : Bool) : RefreshOutcome :=
  if wsOpen then
    { wsSent := [], requests := [], applied := none, errorCaught := true }
  else
    { wsSent := [], requests := [], applied := none, errorCaught := false }

/-- The `initRefresh` click handler of the part_000 dashboard script (lines
479-508): send the `refresh` directive when the socket is open; otherwise
`POST /api/refresh` and, on an `ok` status, `GET /api/opportunities` and
apply the payload through `handleDataUpdate`. `refreshStatus` and `pulled`
are the two responses the closed-socket branch awaits. -/
def initRefreshClickAlt (wsOpen : Bool) (refreshStatus : String) (pulled : DataMsg) :
    RefreshOutcome :=
  if wsOpen then
    { wsSent := ["refresh"], requests := [], applied := none, errorCaught := false }
  else if refreshStatus = "ok" then
    { wsSent := []
      requests := ["POST /api/refresh", "GET /api/opportunities"]
      applied := some pulled
      errorCaught := false }
  else
    { wsSent := [], requests := ["POST /api/refresh"], applied := none, errorCaught := false }

/-- One point of the per-token time series `GET /api/history/{token}`
returns. -/
structure HistoryPoint where
  timestamp : String
  net_apr : Option ℚ
  gate_apr : Option ℚ
  borrow_rate : Option ℚ
  deriving DecidableEq, Repr

/-- The envelope of that endpoint: `{data: TimeSeriesPoint[], trend?}`. -/
structure HistoryResponse where
  data : List HistoryPoint
  trendText : Option String
  deriving DecidableEq, Repr

/-- The datasets a drawn chart holds (labels and the three series). -/
structure ChartSpec where
  labels : List String
  netAprs : List (Option ℚ)
  gateAprs : List (Option ℚ)
  borrowRates : List (Option ℚ)
  deriving DecidableEq, Repr

/-- Model of `renderChart` (app.js lines 925-943): sort the series by timestamp
(the ISO timestamp strings the backend sends compare the same as their
dates), build the datasets, and bail out — creating no chart — when the
series is empty. -/
def renderChart (history : List HistoryPoint) : Option ChartSpec :=
  let sorted := history.insertionSort fun a b => a.timestamp ≤ b.timestamp
  if sorted.length = 0 then none
  else
    some
      { labels := sorted.map fun d => toLocaleTimeString d.timestamp
        netAprs := sorted.map fun d => d.net_apr
        gateAprs := sorted.map fun d => d.gate_apr
        borrowRates := sorted.map fun d => d.borrow_rate }

/-- What one invocation of `openChartModal` did. -/
structure ChartOutcome where
  prevDestroyed : Bool
  alerted : Bool
  chart : Option ChartSpec
  deriving DecidableEq, Repr

/-- Model of `openChartModal` (app.js lines 863-911): destroy any previous chart,
fetch the history, and test `!data || data.length === 0` on the parsed
response. `resp = none` models a `null`/absent JSON body (the `!data`
test); on the object envelope the endpoint actually sends, `data.length`
is `undefined`, so `data.length === 0` is false even for an empty series
and the handler proceeds straight to `renderChart`. -/
def openChartModal (prevChart : Option ChartSpec) (resp : Option HistoryResponse) :
    ChartOutcome :=
  let destroyed := prevChart.isSome
  match resp with
  | none => { prevDestroyed := destroyed, alerted := true, chart := none }
  | some r => { prevDestroyed := destroyed, alerted := false, chart := renderChart r.data }

instance (fs : FilterState) (d : Opportunity) : Decidable (matchesActiveFilters fs d) := by
  unfold matchesActiveFilters
  infer_instance

/-- The per-column key order the comparator realises: numeric columns by
the `?? 0`-defaulted value, the `currency` column by the string order,
each reversed when descending. -/
def keyLE (col : SortCol) (asc : Bool) (a b : Opportunity) : Prop :=
  match col with
  | .currency =>
      if asc then a.currency ≤ b.currency else b.currency ≤ a.currency
  | c =>
      if asc then (numField a c).getD 0 ≤ (numField b c).getD 0
      else (numField b c).getD 0 ≤ (numField a c).getD 0

/-! ### Concrete fixtures (the worked example of spec §8 and similar) -/

/-- The `ETH` opportunity of the spec's worked example. -/
def oppETH : Opportunity :=
  { currency := "ETH", gate_apr := some 55, okx_loan_rate := none,
    binance_loan_rate := none, net_apr := some 60, effective_ev := none,
    best_loan_source := none, available := some true, status := none,
    okx_avail_loan := none, gate_wd_fee_usd := none, okx_wd_fee_usd := none,
    binance_wd_fee_usd := none }

/-- The `BTC` opportunity of the spec's worked example. -/
def oppBTC : Opportunity :=
  { currency := "BTC", gate_apr := none, okx_loan_rate := none,
    binance_loan_rate := none, net_apr := some 10, effective_ev := none,
    best_loan_source := none, available := some false, status := none,
    okx_avail_loan := none, gate_wd_fee_usd := none, okx_wd_fee_usd := none,
    binance_wd_fee_usd := none }

/-- An opportunity tied with `oppETH` on `net_apr`, for the stability
check. -/
def oppTie : Opportunity :=
  { oppETH with currency := "AAA", available := some true }

/-- An opportunity with `net_apr = 36.5`, the daily-earnings example. -/
def oppDaily : Opportunity :=
  { oppETH with currency := "DAILY", net_apr := some (73 / 2) }

/-- Every control at its no-constraint value. -/
def noFilters : FilterState :=
  { source := "all", minApr := 0, search := "", avail := "all", loanSize := 1000 }

/-- A concrete UI state holding the worked example's snapshot. -/
def exState : UIState :=
  { data := [oppETH, oppBTC]
    lastUpdate := some "2024-01-01T00:00:00Z"
    filters := noFilters
    sortCol := .net_apr
    sortAsc := false
    filtered := []
    filteredCountText := "0"
    table := .placeholder
    kpis := { bestApr := "—", oppsCount := "—", lastUpdate := "—" } }

/-- The worked example's state with the APR floor set to 50. -/
def exMinAprState : UIState :=
  { exState with filters := { noFilters with minApr := 50 } }

/-- A pushed snapshot carrying the worked example's data. -/
def msgEx : DataMsg :=
  { data := some [oppETH, oppBTC], timestamp := some "2024-01-01T00:00:00Z" }

/-- A DOM environment for the purity check. -/
def envA : DomEnv :=
  { filterSourceValue := "all", filterAprValue := "50", filterSearchValue := ""
    filterAvailableValue := "all", filterLoanSizeValue := "1000"
    clockText := "10:00:00", wsStatusHtml := "Live", collectorStatusHtml := "ok"
    botStatusHtml := "idle", pendingPollResponses := [] }

/-- The same declared inputs as `envA`, every ambient field different. -/
def envB : DomEnv :=
  { envA with
      clockText := "23:59:59", wsStatusHtml := "Disconnected"
      collectorStatusHtml := "Offline", botStatusHtml := "running"
      pendingPollResponses := ["GET /api/bot/status"] }

/-- A previously drawn chart, for the release-before-redraw check. -/
def chartPrev : ChartSpec :=
  { labels := ["00:00"], netAprs := [some 1], gateAprs := [none], borrowRates := [none] }

/-- The exhausted transport state: the retry count at the configured
bound. -/
def wsExhausted : WSState :=
  { wsRetries := 50, maxWsRetries := 50 }

/-- The render invariant of spec §3: the displayed table is the full
filter-then-sort recompute of the cached snapshot — the filtered list is
`sort(filter(data))`, the table body renders exactly that list, and the
shown count is its length. -/
def renderInvariant (st : UIState) : Prop :=
  st.filtered = jsSortData st.sortCol st.sortAsc (applyFilters st.filters st.data) ∧
  st.table = renderTable st.filters.loanSize st.filtered ∧
  st.filteredCountText = toString st.filtered.length

/-! ## Helper lemmas -/

/-- The four sequential `filter` passes of `applyFilters` keep exactly the
opportunities satisfying the conjunction of the active predicates. -/
theorem mem_applyFilters (fs : FilterState) (data : List Opportunity) (d : Opportunity) :
    d ∈ applyFilters fs data ↔ d ∈ data ∧ matchesActiveFilters fs d := by
  simp only [applyFilters, matchesActiveFilters]
  split_ifs <;> simp_all [List.mem_filter] <;> tauto

/-- The sign `localeCompare` returns asks not to swap exactly for the (non-strict) string
order. -/
theorem localeCompare_le_iff (x y : String) : localeCompare x y ≤ 0 ↔ x ≤ y := by
  unfold localeCompare
  rcases lt_trichotomy x y with h | h | h
  · simp [h, le_of_lt h]
  · subst h
    simp
  · simp [not_lt_of_gt h, h, not_le_of_gt h]

/-- The comparator's keep-order relation is the per-column key order. -/
theorem sortRel_iff_keyLE (col : SortCol) (asc : Bool) (a b : Opportunity) :
    sortRel col asc a b ↔ keyLE col asc a b := by
  unfold sortRel compareFn keyLE
  cases col <;> cases asc <;>
    simp [localeCompare_le_iff, sub_nonpos]

/-- The comparator's keep-order relation is transitive. -/
theorem sortRel_trans (col : SortCol) (asc : Bool) (a b c : Opportunity)
    (hab : sortRel col asc a b) (hbc : sortRel col asc b c) : sortRel col asc a c := by
  rw [sortRel_iff_keyLE] at *
  unfold keyLE at *
  cases col <;> cases asc <;> simp_all <;>
    first
    | exact le_trans hab hbc
    | exact le_trans hbc hab

/-- The comparator's keep-order relation is total. -/
theorem sortRel_total (col : SortCol) (asc : Bool) (a b : Opportunity) :
    sortRel col asc a b ∨ sortRel col asc b a := by
  rw [sortRel_iff_keyLE, sortRel_iff_keyLE]
  unfold keyLE
  cases col <;> cases asc <;> simp <;> exact le_total _ _

/-- The function `updateKPIs` writes only the KPI elements: every other component of
the state is untouched. -/
theorem updateKPIs_preserves (st : UIState) :
    (updateKPIs st).data = st.data ∧
    (updateKPIs st).lastUpdate = st.lastUpdate ∧
    (updateKPIs st).filters = st.filters ∧
    (updateKPIs st).sortCol = st.sortCol ∧
    (updateKPIs st).sortAsc = st.sortAsc ∧
    (updateKPIs st).filtered = st.filtered ∧
    (updateKPIs st).filteredCountText = st.filteredCountText ∧
    (updateKPIs st).table = st.table := by
  unfold updateKPIs
  cases kpiSummary st.data st.lastUpdate <;>
    exact ⟨rfl, rfl, rfl, rfl, rfl, rfl, rfl, rfl⟩

/-- The seed of a `max` fold is a lower bound of the result. -/
theorem le_foldl_max (as : List ℚ) (a : ℚ) : a ≤ as.foldl max a := by
  induction as generalizing a with
  | nil => simp
  | cons b bs ih => exact le_trans (le_max_left a b) (ih (max a b))

/-- Every list element is a lower bound of a `max` fold over the list. -/
theorem mem_le_foldl_max (as : List ℚ) (a x : ℚ) (hx : x ∈ as) : x ≤ as.foldl max a := by
  induction as generalizing a with
  | nil => cases hx
  | cons b bs ih =>
      rcases List.mem_cons.mp hx with h | h
      · subst h
        exact le_trans (le_max_right a x) (le_foldl_max bs (max a x))
      · exact ih (max a b) h

/-- A `max` fold returns its seed or one of the list's elements. -/
theorem foldl_max_mem (as : List ℚ) (a : ℚ) : as.foldl max a = a ∨ as.foldl max a ∈ as := by
  induction as generalizing a with
  | nil => left; rfl
  | cons b bs ih =>
      rcases ih (max a b) with h | h
      · rcases max_choice a b with hm | hm
        · left
          rw [List.foldl_cons, h, hm]
        · right
          rw [List.foldl_cons, h, hm]
          exact List.mem_cons_self b bs
      · right
        exact List.mem_cons_of_mem b h

/-- The value of `Math.max` over a non-empty spread bounds every element. -/
theorem le_jsMaxList (l : List ℚ) (x : ℚ) (hx : x ∈ l) : x ≤ jsMaxList l := by
  cases l with
  | nil => cases hx
  | cons a as =>
      rcases List.mem_cons.mp hx with h | h
      · subst h
        exact le_foldl_max as x
      · exact mem_le_foldl_max as a x h

/-- The value of `Math.max` over a non-empty spread is attained by some element. -/
theorem jsMaxList_mem (l : List ℚ) (h : l ≠ []) : jsMaxList l ∈ l := by
  cases l with
  | nil => exact absurd rfl h
  | cons a as =>
      rcases foldl_max_mem as a with hm | hm
      · simp [jsMaxList, hm]
      · exact List.mem_cons_of_mem a hm

/-- A render pass establishes the render invariant, whatever state it ran
from. -/
theorem renderInvariant_applyFiltersAndRender (s : UIState) :
    renderInvariant (applyFiltersAndRender s) :=
  ⟨rfl, rfl, rfl⟩

/-- The function `updateKPIs` preserves the render invariant. -/
theorem renderInvariant_updateKPIs (s : UIState) (h : renderInvariant s) :
    renderInvariant (updateKPIs s) := by
  obtain ⟨h1, h2, h3, h4, h5, h6, h7, h8⟩ := updateKPIs_preserves s
  unfold renderInvariant at *
  rw [h1, h3, h4, h5, h6, h7, h8]
  exact h

/-! ## Claims -/

/-- Claim C1: for every snapshot and every filter state, the row list
produced by `applyFiltersAndRender` contains exactly the opportunities
satisfying the conjunction of all active predicates (source match, APR
floor with missing `net_apr` as 0, case-insensitive substring match on the
symbol, availability via the boolean or the matching status string), each
predicate skipped when its control is at the no-constraint value; nothing
excluded by an active predicate appears. -/
theorem claim_C1_filtered_membership (st : UIState) (d : Opportunity) :
    d ∈ (applyFiltersAndRender st).filtered ↔
      d ∈ st.data ∧ matchesActiveFilters st.filters d := by
  show d ∈ jsSortData st.sortCol st.sortAsc (applyFilters st.filters st.data) ↔ _
  rw [jsSortData, List.mem_insertionSort]
  exact mem_applyFilters st.filters st.data d

/-- Witness for C1 at the spec's worked example: with the APR floor at 50,
`ETH` (net APR 60) is in the rendered list and `BTC` (net APR 10) is not. -/
theorem claim_C1_witness :
    oppETH ∈ (applyFiltersAndRender exMinAprState).filtered ∧
    oppBTC ∉ (applyFiltersAndRender exMinAprState).filtered :=
  ⟨(claim_C1_filtered_membership exMinAprState oppETH).mpr ⟨by decide, by decide⟩,
   fun h => by
    have := ((claim_C1_filtered_membership exMinAprState oppBTC).mp h).2
    revert this
    decide⟩

/-- Claim C2: after every snapshot arrival and after every filter or sort
change, the rendered table is the full `sort(filter(latest snapshot))`
recompute — the invariant holds at the post-state of every event,
regardless of what the pre-state contained (no incremental patching, no
stale partial renders). -/
theorem claim_C2_full_recompute (st : UIState) (e : UIEvent) :
    renderInvariant (step st e) := by
  cases e with
  | snapshot msg =>
      exact renderInvariant_updateKPIs _ (renderInvariant_applyFiltersAndRender _)
  | filtersChanged fs =>
      exact renderInvariant_applyFiltersAndRender _
  | sortHeaderClick col =>
      by_cases h : st.sortCol = col <;> simp only [step, h, if_true, if_false] <;>
        exact renderInvariant_applyFiltersAndRender _

/-- Claim C3: for every non-empty snapshot, the best-APR KPI equals the
maximum of `net_apr` (missing treated as 0) over the full unfiltered
snapshot — it bounds every element and is attained — and its value does
not depend on the filter or sort controls. -/
theorem claim_C3_best_apr (st : UIState) (h : st.data ≠ []) :
    (updateKPIs st).kpis.bestApr
        = fmt (jsMaxList (st.data.map fun d => d.net_apr.getD 0)) ++ "%" ∧
    (∀ d ∈ st.data, d.net_apr.getD 0 ≤ jsMaxList (st.data.map fun d => d.net_apr.getD 0)) ∧
    jsMaxList (st.data.map fun d => d.net_apr.getD 0)
        ∈ st.data.map (fun d => d.net_apr.getD 0) ∧
    (∀ fs c a, (updateKPIs { st with filters := fs, sortCol := c, sortAsc := a }).kpis
        = (updateKPIs st).kpis) := by
  have hlen : st.data.length ≠ 0 := fun hl => h (List.length_eq_zero.mp hl)
  refine ⟨?_, ?_, ?_, ?_⟩
  · simp [updateKPIs, kpiSummary, hlen]
  · intro d hd
    exact le_jsMaxList _ _ (List.mem_map_of_mem _ hd)
  · exact jsMaxList_mem _ (by simpa using h)
  · intro fs c a
    simp only [updateKPIs, kpiSummary]
    split <;> rfl

/-- Witness for C3 at the worked example: the snapshot `[ETH, BTC]` is
non-empty and the KPI text is the formatted maximum. -/
theorem claim_C3_witness :
    exState.data ≠ [] ∧
    (updateKPIs exState).kpis.bestApr
      = fmt (jsMaxList (exState.data.map fun d => d.net_apr.getD 0)) ++ "%" :=
  ⟨by decide, (claim_C3_best_apr exState (by decide)).1⟩

/-- Claim C4: the reconnect delay computed in the `onclose` handler is
monotone in the retry count and never exceeds the 30000 ms cap; across
consecutive disconnects with no intervening open, successive scheduled
delays are non-decreasing; and once the retry count has reached the
configured bound, `onclose` schedules nothing and leaves the state as it
is (so no reconnect attempt occurs without a manual intervention). -/
theorem claim_C4_backoff :
    (∀ r s : ℕ, r ≤ s → backoffDelay r ≤ backoffDelay s) ∧
    (∀ st : WSState, ∀ d : ℚ, (onClose st).1 = some d → d ≤ 30000) ∧
    (∀ st : WSState, ∀ d e : ℚ, (onClose st).1 = some d →
        (onClose (onClose st).2).1 = some e → d ≤ e) ∧
    (∀ st : WSState, st.maxWsRetries ≤ st.wsRetries → onClose st = (none, st)) := by
  have hmono : ∀ r s : ℕ, r ≤ s → backoffDelay r ≤ backoffDelay s := by
    intro r s hrs
    unfold backoffDelay
    refine min_le_min ?_ le_rfl
    have := pow_le_pow_right₀ (by norm_num : (1 : ℚ) ≤ 3 / 2) hrs
    linarith
  refine ⟨hmono, ?_, ?_, ?_⟩
  · intro st d hd
    unfold onClose at hd
    split at hd
    · cases hd
      exact min_le_right _ _
    · cases hd
  · intro st d e hd he
    by_cases h1 : st.wsRetries < st.maxWsRetries
    · by_cases h2 : st.wsRetries + 1 < st.maxWsRetries
      · simp [onClose, h1, h2] at hd he
        subst hd
        subst he
        exact hmono _ _ (Nat.le_succ _)
      · simp [onClose, h1, h2] at he
    · simp [onClose, h1] at hd
  · intro st hle
    unfold onClose
    rw [if_neg (Nat.not_lt.mpr hle)]

/-- Witness for C4: the first two delays are non-decreasing, a scheduled
delay from the initial state respects the cap, and the exhausted state
schedules nothing. -/
theorem claim_C4_witness :
    backoffDelay 0 ≤ backoffDelay 1 ∧
    (1000 : ℚ) ≤ 30000 ∧
    onClose wsExhausted = (none, wsExhausted) :=
  ⟨claim_C4_backoff.1 0 1 (by decide),
   claim_C4_backoff.2.1 wsInitState 1000 (by norm_num [onClose, wsInitState, backoffDelay]),
   claim_C4_backoff.2.2.2 wsExhausted (by decide)⟩

/-- Claim C5, evaluated against app.js's `initRefresh`: with the socket
open, the handler sends nothing on the stream and its body raises (the
undefined `res`), caught by its own `catch`; with the socket closed it
issues no request and applies nothing — against the claim, which the
part_000 copy of the handler does satisfy: directive on an open socket,
`POST /api/refresh` + `GET /api/opportunities` + `handleDataUpdate`
otherwise. -/
theorem claim_C5_refresh_divergence :
    (initRefreshClick true).wsSent = [] ∧
    (initRefreshClick true).errorCaught = true ∧
    (initRefreshClick true).requests = [] ∧
    (initRefreshClick false).requests = [] ∧
    (initRefreshClick false).applied = none ∧
    (∀ s p, (initRefreshClickAlt true s p).wsSent = ["refresh"]) ∧
    (∀ p, (initRefreshClickAlt false "ok" p).applied = some p ∧
        (initRefreshClickAlt false "ok" p).requests
          = ["POST /api/refresh", "GET /api/opportunities"]) :=
  ⟨rfl, rfl, rfl, rfl, rfl, fun _ _ => rfl, fun _ => ⟨rfl, rfl⟩⟩

/-- Claim C6: the derive pipeline is a pure function of its declared
inputs — two DOM environments agreeing on the five filter controls give
identical outputs whatever the ambient page state and pending poller
responses are (this covers determinism as the reflexive case), and the
pass issues no network request. -/
theorem claim_C6_pipeline_pure (msg : DataMsg) (col : SortCol) (asc : Bool)
    (e₁ e₂ : DomEnv)
    (hs : e₁.filterSourceValue = e₂.filterSourceValue)
    (ha : e₁.filterAprValue = e₂.filterAprValue)
    (hq : e₁.filterSearchValue = e₂.filterSearchValue)
    (hv : e₁.filterAvailableValue = e₂.filterAvailableValue)
    (hl : e₁.filterLoanSizeValue = e₂.filterLoanSizeValue) :
    derivePipeline msg col asc e₁ = derivePipeline msg col asc e₂ ∧
    (derivePipeline msg col asc e₁).requests = [] := by
  constructor
  · simp only [derivePipeline, readFilterState, hs, ha, hq, hv, hl]
  · rfl

/-- Witness for C6: `envA` and `envB` differ in the clock, every status
pill and the pending poller responses, and the pipeline cannot tell them
apart. -/
theorem claim_C6_witness :
    envA.clockText ≠ envB.clockText ∧
    derivePipeline msgEx SortCol.net_apr false envA
      = derivePipeline msgEx SortCol.net_apr false envB :=
  ⟨by decide,
   (claim_C6_pipeline_pure msgEx SortCol.net_apr false envA envB rfl rfl rfl rfl rfl).1⟩

/-- Claim C7: the daily-earnings figure computed in the row constructor is
`(net_apr / 100 / 365) * loan_size`, and at `net_apr = 36.5`,
`loan_size = 1000` the displayed cell is `1.00`. -/
theorem claim_C7_daily_earnings :
    (∀ (d : Opportunity) (ls : ℚ),
        (renderRow ls d).dailyEarn = d.net_apr.getD 0 / 100 / 365 * ls) ∧
    (renderRow 1000 oppDaily).dailyEarn = 1 ∧
    (renderRow 1000 oppDaily).dailyCell = "1.00" := by
  have h1 : (renderRow 1000 oppDaily).dailyEarn = 1 := by
    norm_num [renderRow, oppDaily, oppETH]
  refine ⟨fun d ls => rfl, h1, ?_⟩
  have hcell : (renderRow 1000 oppDaily).dailyCell
      = fmt ((renderRow 1000 oppDaily).dailyEarn) := rfl
  rw [hcell, h1]
  have h100 : round ((1 : ℚ) * 100) = 100 := by norm_num
  simp only [fmt, toFixed2, h100]
  decide

/-- Claim C8: the pipeline's sort is stable — rows whose keys compare
equal keep their relative input order — hence reapplying the same
(column, direction) to an already-sorted list returns it unchanged; the
output is ordered by the per-column key (numeric with missing as 0, the
textual column by the string order) and is a permutation of the input. -/
theorem claim_C8_sort_stable (col : SortCol) (asc : Bool) (l : List Opportunity) :
    (∀ a b : Opportunity, compareFn col asc a b = 0 → List.Sublist [a, b] l →
        List.Sublist [a, b] (jsSortData col asc l)) ∧
    jsSortData col asc (jsSortData col asc l) = jsSortData col asc l ∧
    (jsSortData col asc l).Sorted (keyLE col asc) ∧
    List.Perm (jsSortData col asc l) l := by
  haveI : IsTrans Opportunity (sortRel col asc) := ⟨sortRel_trans col asc⟩
  haveI : IsTotal Opportunity (sortRel col asc) :=
    ⟨fun a b => sortRel_total col asc a b⟩
  have hsorted : (jsSortData col asc l).Sorted (sortRel col asc) :=
    List.sorted_insertionSort (sortRel col asc) l
  refine ⟨?_, ?_, ?_, ?_⟩
  · intro a b hab hsub
    exact List.pair_sublist_insertionSort (le_of_eq hab) hsub
  · exact hsorted.insertionSort_eq
  · exact hsorted.imp fun h => (sortRel_iff_keyLE col asc _ _).mp h
  · exact List.perm_insertionSort (sortRel col asc) l

/-- Witness for C8: `ETH` and `AAA` tie on `net_apr`; sorting the pair by
that column keeps them in input order. -/
theorem claim_C8_witness :
    compareFn SortCol.net_apr false oppETH oppTie = 0 ∧
    List.Sublist [oppETH, oppTie] (jsSortData SortCol.net_apr false [oppETH, oppTie]) :=
  ⟨by norm_num [compareFn, numField, oppTie, oppETH],
   (claim_C8_sort_stable SortCol.net_apr false [oppETH, oppTie]).1 oppETH oppTie
     (by norm_num [compareFn, numField, oppTie, oppETH]) (List.Sublist.refl _)⟩

/-- Claim C9, evaluated against `openChartModal`: for the empty series the
endpoint actually sends (`{data: [], ...}`), the emptiness test
`data.length === 0` reads `undefined` off the object envelope, so the
no-data message is NOT shown, against the claim; the handler still does
not throw, destroys the previous chart before any redraw, and draws
nothing. The alert fires only for a `null` body. -/
theorem claim_C9_empty_series_divergence :
    (openChartModal (some chartPrev) (some { data := [], trendText := none })).alerted
        = false ∧
    (openChartModal (some chartPrev) (some { data := [], trendText := none })).chart
        = none ∧
    (openChartModal (some chartPrev) (some { data := [], trendText := none })).prevDestroyed
        = true ∧
    (openChartModal none none).alerted = true :=
  ⟨rfl, rfl, rfl, rfl⟩

/-- Claim C10: a data update carrying an empty opportunity list (whether
`[]` or an absent `data` field) leaves every KPI element exactly as it
was — the display keeps the values of the previous non-empty snapshot —
while the snapshot cache itself becomes empty. -/
theorem claim_C10_empty_snapshot_kpis (st : UIState) (ts : Option String) :
    (step st (.snapshot { data := some [], timestamp := ts })).kpis = st.kpis ∧
    (step st (.snapshot { data := none, timestamp := ts })).kpis = st.kpis ∧
    (step st (.snapshot { data := some [], timestamp := ts })).data = [] := by
  refine ⟨?_, ?_, ?_⟩ <;>
    simp [step, handleDataUpdate, updateKPIs, kpiSummary, applyFiltersAndRender]

end OppClient
